import Mathlib

/-!
# Verification of `src/modules/model.py` (DeepSpeech2-style ASR model)

This file gives a shallow embedding of the PyTorch model defined in
`src/modules/model.py` and proves properties of it.

Two complementary embeddings are used:

* a *shape semantics*: every `forward` method is mirrored by a function
  `Shape → Option Shape` that computes the shape of the output tensor, or
  `none` when the underlying tensor library would raise a shape-mismatch
  error.  The shape rules of the library layers (`Conv2d`, `LayerNorm`,
  `GRU`, `Linear`, `view`, `transpose`, in-place broadcast `+=`) follow
  the documented PyTorch semantics of the corresponding calls.

* a *value semantics* over `ℚ`: tensors are index functions into `ℚ`,
  and the transcendental scalar functions used by the layers
  (GELU, sigmoid, tanh, the reciprocal square root inside layer
  normalization) are abstract parameters collected in `ScalarOps`.
  Dropout takes explicit uniform draws in `[0,1)`, so randomness is an
  explicit argument of `forward`.
-/

/-! ## Shape semantics of the library layers used by the model -/

abbrev Shape := List Nat

/-- Output length of one spatial dimension of `torch.nn.Conv2d`:
`floor((n + 2*pad - k) / stride) + 1`. -/
def convOutDim (n k stride pad : Nat) : Nat :=
  (n + 2 * pad - k) / stride + 1

/-- Shape rule of `torch.nn.Conv2d(inC, outC, k, stride, padding=pad)` on a
4D input `(batch, channel, height, width)`: the channel count must match and
each spatial output length must be at least 1. -/
def conv2dShape (inC outC k stride pad : Nat) : Shape → Option Shape
  | [b, c, h, w] =>
      if c = inC ∧ k ≤ h + 2 * pad ∧ k ≤ w + 2 * pad ∧ 1 ≤ stride then
        some [b, outC, convOutDim h k stride pad, convOutDim w k stride pad]
      else none
  | _ => none

/-- Shape rule of `torch.nn.LayerNorm(nf)`: the trailing dimension must be
`nf`; the shape is unchanged. -/
def layerNormShape (nf : Nat) (s : Shape) : Option Shape :=
  if s.getLast? = some nf then some s else none

/-- Shape rule of `x.transpose(2, 3)` on a 4D tensor. -/
def transpose23Shape : Shape → Option Shape
  | [b, c, f, t] => some [b, c, t, f]
  | _ => none

/-- GELU is elementwise: the shape is unchanged. -/
def geluShape (s : Shape) : Option Shape := some s

/-- Dropout is elementwise: the shape is unchanged. -/
def dropoutShape (s : Shape) : Option Shape := some s

/-- Shape rule of the in-place `x += residual`: the residual must broadcast
to the shape of `x` (same rank, every residual dimension equal to the
corresponding dimension of `x` or equal to 1); the result keeps the shape
of `x`. -/
def addInPlaceShape (x r : Shape) : Option Shape :=
  if r.length = x.length ∧ (List.zip r x).all (fun p => p.1 = p.2 || p.1 = 1) then
    some x
  else none

/-- Shape rule of a bidirectional `torch.nn.GRU(input_size, hidden_size)` on
a 3D input: the trailing dimension must equal `input_size`, and the output
trailing dimension is `2 * hidden_size` (forward and backward outputs are
concatenated). -/
def gruBiShape (inputSize hiddenSize : Nat) : Shape → Option Shape
  | [a, b, f] => if f = inputSize then some [a, b, 2 * hiddenSize] else none
  | _ => none

/-- Shape rule of `torch.nn.Linear(inF, outF)`: the trailing dimension must
be `inF` and becomes `outF`. -/
def linearShape (inF outF : Nat) (s : Shape) : Option Shape :=
  if s.getLast? = some inF then some (s.dropLast ++ [outF]) else none

/-! ## Shape semantics of the model's modules

Each `forwardShape` mirrors, statement by statement, the corresponding
`forward` method in `src/modules/model.py`. -/

/-- `CNNLayerNorm.forward`: transpose axes 2 and 3, apply `LayerNorm(n_feats)`
over the trailing axis, transpose back. -/
def CNNLayerNorm.forwardShape (nf : Nat) (s : Shape) : Option Shape :=
  ((transpose23Shape s).bind (layerNormShape nf)).bind transpose23Shape

/-- `ResidualCNN.forward`: save the residual; then
layer_norm1, GELU, dropout1, cnn1, layer_norm2, GELU, dropout2, cnn2,
and finally `x += residual`.  The constructor sets `padding = kernel // 2`
for both convolutions. -/
def ResidualCNN.forwardShape (inC outC k stride nf : Nat) (s : Shape) : Option Shape :=
  ((((((((CNNLayerNorm.forwardShape nf s).bind geluShape).bind
      dropoutShape).bind
      (conv2dShape inC outC k stride (k / 2))).bind
      (CNNLayerNorm.forwardShape nf)).bind geluShape).bind
      dropoutShape).bind
      (conv2dShape outC outC k stride (k / 2))).bind
      (fun x => addInPlaceShape x s)

/-- `BidirectionalGRU.forward`: `LayerNorm(rnn_dim)`, GELU, the bidirectional
GRU (`input_size = rnn_dim`, `hidden_size`), dropout. -/
def BidirectionalGRU.forwardShape (rnnDim hiddenSize : Nat) (s : Shape) : Option Shape :=
  (((layerNormShape rnnDim s).bind geluShape).bind
      (gruBiShape rnnDim hiddenSize)).bind dropoutShape

/-! ## Shape semantics of `SpeechRecognitionModel` -/

/-- Construction hyperparameters of `SpeechRecognitionModel.__init__`
(stride defaults to 2, as in the source). -/
structure SRMConfig where
  nCnnLayers : Nat
  nRnnLayers : Nat
  rnnDim : Nat
  nClass : Nat
  nFeats : Nat
  stride : Nat := 2

/-- The `rescnn_layers` stack: `n_cnn_layers` residual blocks, each
`ResidualCNN(32, 32, kernel=3, stride=1, n_feats = n_feats // 2)`. -/
def rescnnStackShape (nf : Nat) : Nat → Shape → Option Shape
  | 0, s => some s
  | n + 1, s => (ResidualCNN.forwardShape 32 32 3 1 nf s).bind (rescnnStackShape nf n)

/-- The `birnn_layers` stack starting from block index `i`: block `j` is
`BidirectionalGRU(rnn_dim = rnnDim if j = 0 else rnnDim * 2, hidden_size = rnnDim)`. -/
def birnnStackShapeFrom (rnnDim : Nat) : Nat → Nat → Shape → Option Shape
  | _, 0, s => some s
  | i, n + 1, s =>
      (BidirectionalGRU.forwardShape (if i = 0 then rnnDim else rnnDim * 2) rnnDim s).bind
        (birnnStackShapeFrom rnnDim (i + 1) n)

/-- `x.view(sizes[0], sizes[1] * sizes[2], sizes[3])` followed by
`x.transpose(1, 2)` on a 4D tensor. -/
def viewTransposeShape : Shape → Option Shape
  | [a, b, c, d] => some [a, d, b * c]
  | _ => none

/-- The `classifier` head: `Linear(rnn_dim * 2, rnn_dim)`, GELU, dropout,
`Linear(rnn_dim, n_class)`. -/
def classifierShape (rnnDim nClass : Nat) (s : Shape) : Option Shape :=
  (((linearShape (rnnDim * 2) rnnDim s).bind geluShape).bind dropoutShape).bind
    (linearShape rnnDim nClass)

/-- `SpeechRecognitionModel.forward`: the initial
`Conv2d(1, 32, 3, stride, padding=1)`, the residual stack (configured with
`n_feats // 2`), the view/transpose reshape, `fully_connected =
Linear(n_feats // 2 * 32, rnn_dim)`, the recurrent stack, the classifier. -/
def SpeechRecognitionModel.forwardShape (cfg : SRMConfig) (s : Shape) : Option Shape :=
  (((((conv2dShape 1 32 3 cfg.stride 1 s).bind
      (rescnnStackShape (cfg.nFeats / 2) cfg.nCnnLayers)).bind
      viewTransposeShape).bind
      (linearShape (cfg.nFeats / 2 * 32) cfg.rnnDim)).bind
      (birnnStackShapeFrom cfg.rnnDim 0 cfg.nRnnLayers)).bind
      (classifierShape cfg.rnnDim cfg.nClass)

/-! ## Construction-time configuration data used by `__init__` -/

/-- Per-block construction arguments of the `birnn_layers` stack:
`(rnn_dim argument, hidden_size, batch_first)` for block `i`, exactly as in
`SpeechRecognitionModel.__init__`: `rnn_dim if i == 0 else rnn_dim * 2`,
`hidden_size = rnn_dim`, `batch_first = (i == 0)`.  The `rnn_dim` argument
is both the GRU `input_size` and the width of the block's `LayerNorm`. -/
def birnnConfigs (nRnn rnnDim : Nat) : List (Nat × Nat × Bool) :=
  (List.range nRnn).map fun i =>
    (if i = 0 then rnnDim else rnnDim * 2, rnnDim, decide (i = 0))

/-- Widths of the normalization layers inside the residual stack: each of the
`nCnn` blocks holds two `CNNLayerNorm(nf)` layers, `nf = n_feats // 2`. -/
def rescnnNormWidths (nCnn nf : Nat) : List Nat :=
  (List.range nCnn).flatMap fun _ => [nf, nf]

/-- Widths of all normalization layers configured after the initial
convolution: the residual blocks' layer norms followed by the recurrent
blocks' layer norms (each of width equal to its `rnn_dim` argument). -/
def modelNormWidths (cfg : SRMConfig) : List Nat :=
  rescnnNormWidths cfg.nCnnLayers (cfg.nFeats / 2) ++
    (birnnConfigs cfg.nRnnLayers cfg.rnnDim).map (fun c => c.1)

/-- C1: with n_cnn_layers=3, n_rnn_layers=2, rnn_dim=256, n_class=29,
n_feats=128, stride=2, a forward call on an input of shape
(2, 1, 128, 300) returns a tensor of shape (2, 150, 29). -/
theorem C1_end_to_end_shape :
    SpeechRecognitionModel.forwardShape ⟨3, 2, 256, 29, 128, 2⟩ [2, 1, 128, 300] =
      some [2, 150, 29] := by
  decide

/-! ## C2: widths of the normalization layers configured at construction -/

/-- C2 counterexample: at n_cnn_layers=3, n_rnn_layers=2, rnn_dim=256,
n_feats=128, not every normalization layer that follows the initial
convolution is configured with the halved feature count 128 // 2 = 64: the
recurrent blocks' layer norms have widths 256 and 512. -/
theorem C2_counterexample :
    (modelNormWidths ⟨3, 2, 256, 29, 128, 2⟩).all (fun w => w == 128 / 2) = false := by
  decide

/-- C2 amended: the halved feature count `n_feats // 2` is the configured
width of every normalization layer inside the residual blocks, while each
recurrent block's normalization layer is configured with that block's input
width: `rnn_dim` for the first block and `rnn_dim * 2` for every subsequent
block. -/
theorem C2_norm_widths_amended (nCnn nRnn r nf i : Nat) (hi : i < nRnn) :
    rescnnNormWidths nCnn (nf / 2) = List.replicate (2 * nCnn) (nf / 2) ∧
    (birnnConfigs nRnn r)[i]? = some (if i = 0 then r else r * 2, r, decide (i = 0)) := by
  constructor
  · induction nCnn with
    | zero => simp [rescnnNormWidths]
    | succ m ih =>
        unfold rescnnNormWidths at ih ⊢
        rw [List.range_succ, List.flatMap_append, ih]
        simp [List.replicate_add, Nat.mul_succ]
  · simp [birnnConfigs, List.getElem?_map, List.getElem?_range, hi]

/-- C2 amended, instantiated at n_cnn_layers=3, n_rnn_layers=2, rnn_dim=256,
n_feats=128, block index 1. -/
theorem C2_norm_widths_amended_witness :
    rescnnNormWidths 3 (128 / 2) = List.replicate (2 * 3) (128 / 2) ∧
    (birnnConfigs 2 256)[1]? = some (if 1 = 0 then 256 else 256 * 2, 256, decide (1 = 0)) :=
  C2_norm_widths_amended 3 2 256 128 1 (by decide)

/-! ## C3: batch-first configuration of the recurrent blocks -/

/-- C3 counterexample: at n_rnn_layers=2, rnn_dim=256, the first recurrent
block is configured batch-first and the second is not, so the configured
axis-order mode is not the same across the stacked blocks. -/
theorem C3_counterexample :
    ((birnnConfigs 2 256).getD 0 (0, 0, false)).2.2 ≠
      ((birnnConfigs 2 256).getD 1 (0, 0, false)).2.2 := by
  decide

/-- C3 amended: in every model, the recurrent block at index `i` is
configured with `batch_first = (i == 0)`: the first block is batch-first and
every subsequent block is time-first. -/
theorem C3_batch_first_amended (n r i : Nat) (hi : i < n) :
    ((birnnConfigs n r)[i]?).map (fun c => c.2.2) = some (decide (i = 0)) := by
  simp [birnnConfigs, List.getElem?_map, List.getElem?_range, hi]

/-- C3 amended, instantiated at n_rnn_layers=2, rnn_dim=256, block index 1. -/
theorem C3_batch_first_amended_witness :
    ((birnnConfigs 2 256)[1]?).map (fun c => c.2.2) = some (decide (1 = 0)) :=
  C3_batch_first_amended 2 256 1 (by decide)

/-! ## C4: shape preservation of the residual convolutional block -/

/-- C4 counterexample: a residual block constructed with stride 1 and the
source's padding `kernel // 2`, but with the even kernel size 2
(in_channels = out_channels = 1, n_feats = 2), fails on the valid input of
shape (1, 1, 2, 2) instead of returning a tensor of the input's shape: the
first convolution grows each spatial dimension to 3, and the second layer
norm rejects feature width 3. -/
theorem C4_counterexample :
    ResidualCNN.forwardShape 1 1 2 1 2 [1, 1, 2, 2] ≠ some [1, 1, 2, 2] := by
  decide

/-- C4 amended: for every valid 4D input (channel count equal to the
configured one, feature width equal to the configured `n_feats`, both
spatial dimensions at least 1), a residual block constructed with stride 1,
an odd kernel size and equal input/output channel counts returns a tensor
of exactly the input's shape; its forward pass is the saved residual plus
the result of applying normalize, GELU, dropout, convolution twice. -/
theorem C4_residual_preserves_shape (inC k nf b t : Nat)
    (hk : k % 2 = 1) (hnf : 1 ≤ nf) (ht : 1 ≤ t) :
    ResidualCNN.forwardShape inC inC k 1 nf [b, inC, nf, t] = some [b, inC, nf, t] := by
  have hconvf : convOutDim nf k 1 (k / 2) = nf := by unfold convOutDim; omega
  have hconvt : convOutDim t k 1 (k / 2) = t := by unfold convOutDim; omega
  have h1 : k ≤ nf + 2 * (k / 2) := by omega
  have h2 : k ≤ t + 2 * (k / 2) := by omega
  simp [ResidualCNN.forwardShape, CNNLayerNorm.forwardShape, transpose23Shape,
    layerNormShape, geluShape, dropoutShape, conv2dShape, addInPlaceShape,
    hconvf, hconvt, h1, h2]

/-- C4 amended, instantiated at the configuration the model actually uses:
32 channels, kernel 3, stride 1, n_feats = 64, on an input of shape
(2, 32, 64, 150). -/
theorem C4_residual_preserves_shape_witness :
    ResidualCNN.forwardShape 32 32 3 1 64 [2, 32, 64, 150] = some [2, 32, 64, 150] :=
  C4_residual_preserves_shape 32 3 64 2 150 (by decide) (by decide) (by decide)

/-! ## C5: shape contract of the bidirectional recurrent block -/

/-- C5: on every valid 3D input (trailing feature width equal to the block's
configured `rnn_dim`), the bidirectional recurrent block — layer
normalization over the trailing axis, GELU, a single-layer bidirectional
GRU, dropout — preserves the two leading axes (in particular the time axis)
and returns feature width exactly twice the configured hidden size. -/
theorem C5_bigru_shape (r h a b : Nat) :
    BidirectionalGRU.forwardShape r h [a, b, r] = some [a, b, 2 * h] := by
  simp [BidirectionalGRU.forwardShape, layerNormShape, geluShape, gruBiShape,
    dropoutShape]

/-! ## Helper lemmas about the shape semantics -/

theorem conv2dShape_some {inC outC k st p : Nat} {s out : Shape}
    (h : conv2dShape inC outC k st p s = some out) :
    ∃ b c hh w, s = [b, c, hh, w] ∧
      out = [b, outC, convOutDim hh k st p, convOutDim w k st p] := by
  unfold conv2dShape at h
  split at h
  next b c hh w =>
    split at h
    · exact ⟨b, c, hh, w, rfl, (Option.some.inj h).symm⟩
    · cases h
  next => cases h

theorem layerNormShape_some {nf : Nat} {s out : Shape}
    (h : layerNormShape nf s = some out) : out = s ∧ s.getLast? = some nf := by
  unfold layerNormShape at h
  split at h
  next hc => exact ⟨(Option.some.inj h).symm, hc⟩
  next => cases h

theorem cnnLayerNormShape_some {nf : Nat} {s out : Shape}
    (h : CNNLayerNorm.forwardShape nf s = some out) : out = s := by
  unfold CNNLayerNorm.forwardShape at h
  rcases Option.bind_eq_some.mp h with ⟨u, hu, h2⟩
  rcases Option.bind_eq_some.mp hu with ⟨v, hv, hln⟩
  unfold transpose23Shape at hv
  split at hv
  next b c f t =>
    cases hv
    rcases layerNormShape_some hln with ⟨rfl, _⟩
    unfold transpose23Shape at h2
    exact (Option.some.inj h2).symm
  next => cases hv

theorem geluShape_some {s out : Shape} (h : geluShape s = some out) : out = s :=
  (Option.some.inj h).symm

theorem dropoutShape_some {s out : Shape} (h : dropoutShape s = some out) : out = s :=
  (Option.some.inj h).symm

theorem addInPlaceShape_some {x r out : Shape} (h : addInPlaceShape x r = some out) :
    out = x := by
  unfold addInPlaceShape at h
  split at h
  · exact (Option.some.inj h).symm
  · cases h

theorem residualShape_some {inC outC k st nf : Nat} {s out : Shape}
    (h : ResidualCNN.forwardShape inC outC k st nf s = some out) :
    out.head? = s.head? ∧ out.length = 4 ∧ s.length = 4 := by
  unfold ResidualCNN.forwardShape at h
  rcases Option.bind_eq_some.mp h with ⟨x8, hx8, hadd⟩
  rcases Option.bind_eq_some.mp hx8 with ⟨x7, hx7, hc2⟩
  rcases Option.bind_eq_some.mp hx7 with ⟨x6, hx6, hd2⟩
  rcases Option.bind_eq_some.mp hx6 with ⟨x5, hx5, hg2⟩
  rcases Option.bind_eq_some.mp hx5 with ⟨x4, hx4, hl2⟩
  rcases Option.bind_eq_some.mp hx4 with ⟨x3, hx3, hc1⟩
  rcases Option.bind_eq_some.mp hx3 with ⟨x2, hx2, hd1⟩
  rcases Option.bind_eq_some.mp hx2 with ⟨x1, hl1, hg1⟩
  cases cnnLayerNormShape_some hl1
  cases geluShape_some hg1
  cases dropoutShape_some hd1
  rcases conv2dShape_some hc1 with ⟨b, c, hh, w, hs, hx4e⟩
  cases cnnLayerNormShape_some hl2
  cases geluShape_some hg2
  cases dropoutShape_some hd2
  rcases conv2dShape_some hc2 with ⟨b2, c2, h2, w2, hx4f, hx8e⟩
  cases addInPlaceShape_some hadd
  subst hs hx4e hx8e
  cases hx4f
  simp

theorem gruBiShape_some {inSz hid : Nat} {s out : Shape}
    (h : gruBiShape inSz hid s = some out) :
    ∃ a b, s = [a, b, inSz] ∧ out = [a, b, 2 * hid] := by
  unfold gruBiShape at h
  split at h
  next a b f =>
    split at h
    next hf => exact ⟨a, b, by rw [hf], (Option.some.inj h).symm⟩
    next => cases h
  next => cases h

theorem bigruShape_some {r hid : Nat} {s out : Shape}
    (h : BidirectionalGRU.forwardShape r hid s = some out) :
    ∃ a b, s = [a, b, r] ∧ out = [a, b, 2 * hid] := by
  unfold BidirectionalGRU.forwardShape at h
  rcases Option.bind_eq_some.mp h with ⟨x3, hx3, hd⟩
  rcases Option.bind_eq_some.mp hx3 with ⟨x2, hx2, hg⟩
  rcases Option.bind_eq_some.mp hx2 with ⟨x1, hln, hge⟩
  rcases layerNormShape_some hln with ⟨rfl, _⟩
  cases geluShape_some hge
  cases dropoutShape_some hd
  exact gruBiShape_some hg

theorem linearShape_some {iF oF : Nat} {s out : Shape}
    (h : linearShape iF oF s = some out) :
    out = s.dropLast ++ [oF] ∧ s.getLast? = some iF := by
  unfold linearShape at h
  split at h
  next hc => exact ⟨(Option.some.inj h).symm, hc⟩
  next => cases h

theorem viewTransposeShape_some {s out : Shape}
    (h : viewTransposeShape s = some out) :
    ∃ a b c d, s = [a, b, c, d] ∧ out = [a, d, b * c] := by
  unfold viewTransposeShape at h
  split at h
  next a b c d => exact ⟨a, b, c, d, rfl, (Option.some.inj h).symm⟩
  next => cases h

theorem rescnnStackShape_head {nf : Nat} :
    ∀ {n : Nat} {s out : Shape}, rescnnStackShape nf n s = some out →
      out.head? = s.head? ∧ out.length = s.length := by
  intro n
  induction n with
  | zero =>
      intro s out h
      cases Option.some.inj h
      exact ⟨rfl, rfl⟩
  | succ m ih =>
      intro s out h
      rcases Option.bind_eq_some.mp h with ⟨mid, hmid, hrest⟩
      rcases residualShape_some hmid with ⟨hh, hl4, hs4⟩
      rcases ih hrest with ⟨hh2, hl2⟩
      exact ⟨hh2.trans hh, by omega⟩

theorem birnnStackShapeFrom_head {r : Nat} :
    ∀ {n i : Nat} {s out : Shape}, birnnStackShapeFrom r i n s = some out →
      out.head? = s.head? ∧ out.length = s.length := by
  intro n
  induction n with
  | zero =>
      intro i s out h
      cases Option.some.inj h
      exact ⟨rfl, rfl⟩
  | succ m ih =>
      intro i s out h
      rcases Option.bind_eq_some.mp h with ⟨mid, hmid, hrest⟩
      rcases bigruShape_some hmid with ⟨a, b, hs, hmide⟩
      rcases ih hrest with ⟨hh2, hl2⟩
      subst hs hmide
      simpa using ⟨hh2, hl2⟩

theorem linearShape_head {iF oF : Nat} {s out : Shape} (h2 : 2 ≤ s.length)
    (h : linearShape iF oF s = some out) :
    out.head? = s.head? ∧ out.length = s.length := by
  rcases linearShape_some h with ⟨rfl, hlast⟩
  constructor
  · match s, h2 with
    | a :: b :: rest, _ => simp
  · simp [List.length_append, List.length_dropLast]
    omega

theorem classifierShape_head {r nc : Nat} {s out : Shape} (h2 : 2 ≤ s.length)
    (h : classifierShape r nc s = some out) :
    out.head? = s.head? ∧ out.length = s.length := by
  unfold classifierShape at h
  rcases Option.bind_eq_some.mp h with ⟨x3, hx3, hl2⟩
  rcases Option.bind_eq_some.mp hx3 with ⟨x2, hx2, hd⟩
  rcases Option.bind_eq_some.mp hx2 with ⟨x1, hl1, hg⟩
  rcases linearShape_head h2 hl1 with ⟨hh1, hlen1⟩
  cases geluShape_some hg
  cases dropoutShape_some hd
  rcases linearShape_head (by omega) hl2 with ⟨hh2, hlen2⟩
  exact ⟨hh2.trans hh1, hlen2.trans hlen1⟩

theorem modelShape_head {cfg : SRMConfig} {s out : Shape}
    (h : SpeechRecognitionModel.forwardShape cfg s = some out) :
    out.head? = s.head? := by
  unfold SpeechRecognitionModel.forwardShape at h
  rcases Option.bind_eq_some.mp h with ⟨x5, hx5, hcl⟩
  rcases Option.bind_eq_some.mp hx5 with ⟨x4, hx4, hbi⟩
  rcases Option.bind_eq_some.mp hx4 with ⟨x3, hx3, hfc⟩
  rcases Option.bind_eq_some.mp hx3 with ⟨x2, hx2, hvt⟩
  rcases Option.bind_eq_some.mp hx2 with ⟨x1, hcnn, hres⟩
  rcases conv2dShape_some hcnn with ⟨b, c, hh, w, hs, hx1⟩
  rcases rescnnStackShape_head hres with ⟨hh1, _⟩
  rcases viewTransposeShape_some hvt with ⟨a2, b2, c2, d2, hx2e, hx3e⟩
  subst hx3e
  rcases linearShape_head (by simp) hfc with ⟨hh3, hlen3⟩
  rcases birnnStackShapeFrom_head hbi with ⟨hh4, hlen4⟩
  have h5 : 2 ≤ x5.length := by rw [hlen4, hlen3]; simp
  rcases classifierShape_head h5 hcl with ⟨hh5, _⟩
  subst hs hx1 hx2e
  simp only [List.head?_cons] at hh1
  rw [hh5, hh4, hh3]
  simp [hh1]

/-! ## C7: batch-size preservation -/

/-- C7: the output batch dimension (leading shape entry) equals the input
batch dimension for the top-level model's forward pass, and batch-size
preservation holds through every intermediate transformation unit: the
initial convolution, the normalization wrapper, the residual blocks, the
view/transpose reshape, the linear projection, the recurrent blocks and
the classifier head. -/
theorem C7_batch_preserved :
    (∀ inC outC k st p (s out : Shape), conv2dShape inC outC k st p s = some out →
      out.head? = s.head?) ∧
    (∀ nf (s out : Shape), CNNLayerNorm.forwardShape nf s = some out →
      out.head? = s.head?) ∧
    (∀ inC outC k st nf (s out : Shape),
      ResidualCNN.forwardShape inC outC k st nf s = some out → out.head? = s.head?) ∧
    (∀ r hid (s out : Shape), BidirectionalGRU.forwardShape r hid s = some out →
      out.head? = s.head?) ∧
    (∀ (s out : Shape), viewTransposeShape s = some out → out.head? = s.head?) ∧
    (∀ iF oF (s out : Shape), 2 ≤ s.length → linearShape iF oF s = some out →
      out.head? = s.head?) ∧
    (∀ r nc (s out : Shape), 2 ≤ s.length → classifierShape r nc s = some out →
      out.head? = s.head?) ∧
    (∀ (cfg : SRMConfig) (s out : Shape),
      SpeechRecognitionModel.forwardShape cfg s = some out → out.head? = s.head?) := by
  refine ⟨?_, ?_, ?_, ?_, ?_, ?_, ?_, ?_⟩
  · intro inC outC k st p s out h
    rcases conv2dShape_some h with ⟨b, c, hh, w, rfl, rfl⟩
    simp
  · intro nf s out h
    rw [cnnLayerNormShape_some h]
  · intro inC outC k st nf s out h
    exact (residualShape_some h).1
  · intro r hid s out h
    rcases bigruShape_some h with ⟨a, b, rfl, rfl⟩
    simp
  · intro s out h
    rcases viewTransposeShape_some h with ⟨a, b, c, d, rfl, rfl⟩
    simp
  · intro iF oF s out h2 h
    exact (linearShape_head h2 h).1
  · intro r nc s out h2 h
    exact (classifierShape_head h2 h).1
  · intro cfg s out h
    exact modelShape_head h

/-- C7, instantiated on the model's forward pass at the end-to-end
configuration: output shape (2, 150, 29) has the same leading (batch)
entry as input shape (2, 1, 128, 300). -/
theorem C7_batch_preserved_witness :
    ([2, 150, 29] : Shape).head? = ([2, 1, 128, 300] : Shape).head? :=
  C7_batch_preserved.2.2.2.2.2.2.2 ⟨3, 2, 256, 29, 128, 2⟩ [2, 1, 128, 300]
    [2, 150, 29] (by decide)

/-! ## C9: odd n_feats breaks the halving assumption -/

/-- C9: with the default stride 2, the initial convolution (kernel 3,
padding 1) maps a frequency axis of length `n_feats` to
`(n_feats - 1) / 2 + 1`; for even `n_feats` this equals the halved value
`n_feats / 2` used to configure the residual blocks, while for every odd
`n_feats` it equals `n_feats / 2 + 1`, the first residual block's
normalization layer rejects that width, and the whole forward pass fails
with a shape mismatch. -/
theorem C9_odd_feats_mismatch (nf b t nCnn nRnn r nc : Nat)
    (hodd : nf % 2 = 1) (ht : 1 ≤ t) (hc : 1 ≤ nCnn) :
    convOutDim nf 3 2 1 = nf / 2 + 1 ∧
    CNNLayerNorm.forwardShape (nf / 2) [b, 32, nf / 2 + 1, convOutDim t 3 2 1] = none ∧
    SpeechRecognitionModel.forwardShape ⟨nCnn, nRnn, r, nc, nf, 2⟩ [b, 1, nf, t] = none ∧
    (∀ m, m % 2 = 0 → 1 ≤ m → convOutDim m 3 2 1 = m / 2) := by
  have hne : ¬ (nf / 2 + 1 = nf / 2) := by omega
  have h1 : convOutDim nf 3 2 1 = nf / 2 + 1 := by unfold convOutDim; omega
  have h2 : CNNLayerNorm.forwardShape (nf / 2)
      [b, 32, nf / 2 + 1, convOutDim t 3 2 1] = none := by
    simp [CNNLayerNorm.forwardShape, transpose23Shape, layerNormShape, hne]
  refine ⟨h1, h2, ?_, ?_⟩
  · obtain ⟨m, rfl⟩ : ∃ m, nCnn = m + 1 := ⟨nCnn - 1, by omega⟩
    have hcond : (1 = 1 ∧ 3 ≤ nf + 2 * 1 ∧ 3 ≤ t + 2 * 1 ∧ 1 ≤ 2) := by omega
    have hres : ResidualCNN.forwardShape 32 32 3 1 (nf / 2)
        [b, 32, nf / 2 + 1, convOutDim t 3 2 1] = none := by
      simp [ResidualCNN.forwardShape, h2]
    simp [SpeechRecognitionModel.forwardShape, conv2dShape, hcond, h1,
      rescnnStackShape, hres]
  · intro m hm hm1
    unfold convOutDim
    omega

/-- C9, instantiated at n_feats = 7 (odd), input (2, 1, 7, 6), one residual
block: the convolution output width is 4 = 7/2 + 1, the first block's
normalization layer rejects it, and the forward pass fails. -/
theorem C9_odd_feats_mismatch_witness :
    convOutDim 7 3 2 1 = 7 / 2 + 1 ∧
    CNNLayerNorm.forwardShape (7 / 2) [2, 32, 7 / 2 + 1, convOutDim 6 3 2 1] = none ∧
    SpeechRecognitionModel.forwardShape ⟨1, 1, 5, 4, 7, 2⟩ [2, 1, 7, 6] = none ∧
    (∀ m, m % 2 = 0 → 1 ≤ m → convOutDim m 3 2 1 = m / 2) :=
  C9_odd_feats_mismatch 7 2 6 1 1 5 4 (by decide) (by decide) (by decide)

/-! ## C10: n_rnn_layers = 0 breaks the classifier's input width -/

/-- C10: with `n_rnn_layers = 0` the recurrent stack is the identity, so the
classifier's first linear layer (expecting width `rnn_dim * 2`) receives
the projection's output width `rnn_dim`; for every `rnn_dim ≠ 0` and every
input, the forward pass fails with a shape mismatch. -/
theorem C10_zero_rnn_layers (r nc nCnn nf : Nat) (hr : r ≠ 0) :
    (∀ s : Shape, birnnStackShapeFrom r 0 0 s = some s) ∧
    (∀ s : Shape, SpeechRecognitionModel.forwardShape ⟨nCnn, 0, r, nc, nf, 2⟩ s = none) := by
  have hrne : ¬ ((r : Nat) = r * 2) := by omega
  constructor
  · intro s
    rfl
  · intro s
    unfold SpeechRecognitionModel.forwardShape
    cases h1 : conv2dShape 1 32 3 2 1 s with
    | none => simp [h1]
    | some x1 =>
      cases h2 : rescnnStackShape (nf / 2) nCnn x1 with
      | none => simp [h1, h2]
      | some x2 =>
        cases h3 : viewTransposeShape x2 with
        | none => simp [h1, h2, h3]
        | some x3 =>
          cases h4 : linearShape (nf / 2 * 32) r x3 with
          | none => simp [h1, h2, h3, h4]
          | some x4 =>
            rcases linearShape_some h4 with ⟨hx4, _⟩
            have hlast : x4.getLast? = some r := by
              rw [hx4]
              exact List.getLast?_concat _
            have hcl : classifierShape r nc x4 = none := by
              simp [classifierShape, linearShape, hlast, hrne]
            simp [h1, h2, h3, h4, birnnStackShapeFrom, hcl]

/-- C10, instantiated at rnn_dim = 256, n_class = 29, n_cnn_layers = 3,
n_feats = 128, on the end-to-end input shape (2, 1, 128, 300). -/
theorem C10_zero_rnn_layers_witness :
    SpeechRecognitionModel.forwardShape ⟨3, 0, 256, 29, 128, 2⟩ [2, 1, 128, 300] = none :=
  (C10_zero_rnn_layers 256 29 3 128 (by decide)).2 [2, 1, 128, 300]

/-! ## Value semantics over ℚ

Tensors are index functions into `ℚ`; dimension bounds are passed where a
layer sums over an axis.  The transcendental scalar functions are abstract
parameters (`ScalarOps`), and dropout receives explicit uniform draws in
`[0, 1)`, keeping all randomness an explicit argument. -/

abbrev Vec := Nat → ℚ
abbrev Mat := Nat → Nat → ℚ
abbrev T3 := Nat → Nat → Nat → ℚ
abbrev T4 := Nat → Nat → Nat → Nat → ℚ

/-- Abstract scalar functions used by the layers: GELU, the GRU's gate
nonlinearities, and the reciprocal square root used by layer
normalization. -/
structure ScalarOps where
  gelu : ℚ → ℚ
  sigmoid : ℚ → ℚ
  tanh : ℚ → ℚ
  rsqrt : ℚ → ℚ

/-- Mean of the first `n` entries of a vector. -/
def lnMean (n : Nat) (v : Vec) : ℚ := (∑ i ∈ Finset.range n, v i) / n

/-- Biased variance of the first `n` entries of a vector. -/
def lnVar (n : Nat) (v : Vec) : ℚ :=
  (∑ i ∈ Finset.range n, (v i - lnMean n v) ^ 2) / n

/-- The `eps` of `torch.nn.LayerNorm` (1e-5). -/
def lnEps : ℚ := 1 / 100000

/-- `torch.nn.LayerNorm` on one fiber of length `n`:
`gamma * (v - mean) / sqrt(var + eps) + beta`, with the reciprocal square
root taken from `ScalarOps`.  The statistics are computed over the `n`
entries of the fiber `v`. -/
def lnVec (ops : ScalarOps) (gamma beta : Vec) (n : Nat) (v : Vec) : Vec :=
  fun f => gamma f * ((v f - lnMean n v) * ops.rsqrt (lnVar n v + lnEps)) + beta f

/-- `x.transpose(2, 3)` on values. -/
def transpose23V (x : T4) : T4 := fun b c i j => x b c j i

/-- `torch.nn.LayerNorm(nf)` applied over the trailing axis of a 4D tensor. -/
def layerNorm4V (ops : ScalarOps) (gamma beta : Vec) (nf : Nat) (x : T4) : T4 :=
  fun b c t f => lnVec ops gamma beta nf (fun i => x b c t i) f

/-- `CNNLayerNorm.forward` on values: transpose axes 2 and 3, layer norm
over the trailing axis, transpose back. -/
def CNNLayerNorm.forwardV (ops : ScalarOps) (gamma beta : Vec) (nf : Nat) (x : T4) : T4 :=
  transpose23V (layerNorm4V ops gamma beta nf (transpose23V x))

/-- Elementwise GELU on a 4D tensor. -/
def gelu4V (ops : ScalarOps) (x : T4) : T4 := fun b c f t => ops.gelu (x b c f t)

/-- Elementwise GELU on a 3D tensor. -/
def gelu3V (ops : ScalarOps) (x : T3) : T3 := fun a b c => ops.gelu (x a b c)

/-- `torch.nn.Dropout(p)` on a 4D tensor, with an explicit tensor `u` of
uniform draws in `[0, 1)`: in training mode an entry is kept (and scaled by
`1 / (1 - p)`) iff its draw is below `1 - p`; in evaluation mode dropout is
the identity. -/
def dropout4V (training : Bool) (p : ℚ) (u : T4) (x : T4) : T4 :=
  if training then
    fun b c f t => if u b c f t < 1 - p then x b c f t / (1 - p) else 0
  else x

/-- `torch.nn.Dropout(p)` on a 3D tensor. -/
def dropout3V (training : Bool) (p : ℚ) (u : T3) (x : T3) : T3 :=
  if training then
    fun a b c => if u a b c < 1 - p then x a b c / (1 - p) else 0
  else x

/-- Zero-padded read of a 4D tensor whose spatial extents are
`fDim × tDim`: positions outside the padded input are 0. -/
def readPad (fDim tDim pad : Nat) (x : T4) (b c fi tj : Nat) : ℚ :=
  if pad ≤ fi ∧ fi - pad < fDim ∧ pad ≤ tj ∧ tj - pad < tDim then
    x b c (fi - pad) (tj - pad)
  else 0

/-- `torch.nn.Conv2d(inC, outC, k, stride, padding=pad)` on values: for each
output position, the bias plus the sum over input channels and the k×k
window of weight times padded input. -/
def conv2dV (inC k stride pad fDim tDim : Nat) (w : Nat → Nat → Nat → Nat → ℚ)
    (bias : Vec) (x : T4) : T4 :=
  fun b o f t => bias o +
    ∑ c ∈ Finset.range inC, ∑ i ∈ Finset.range k, ∑ j ∈ Finset.range k,
      w o c i j * readPad fDim tDim pad x b c (f * stride + i) (t * stride + j)

/-- Matrix–vector product over the first `n` coordinates. -/
def matvec (m : Mat) (n : Nat) (v : Vec) : Vec :=
  fun j => ∑ i ∈ Finset.range n, m j i * v i

/-- `torch.nn.Linear(inF, _)` on the trailing axis of a 3D tensor. -/
def linearV (w : Mat) (bias : Vec) (inF : Nat) (x : T3) : T3 :=
  fun a b j => bias j + matvec w inF (fun i => x a b i) j

/-- Learned parameters of one `ResidualCNN` block. -/
structure ResidualCNNParams where
  w1 : Nat → Nat → Nat → Nat → ℚ
  b1 : Vec
  w2 : Nat → Nat → Nat → Nat → ℚ
  b2 : Vec
  gamma1 : Vec
  beta1 : Vec
  gamma2 : Vec
  beta2 : Vec

/-- `ResidualCNN.forward` on values: residual save, then
layer_norm1, GELU, dropout1, cnn1, layer_norm2, GELU, dropout2, cnn2, and
the final `x += residual`.  `m1`, `m2` are the two dropout draw tensors. -/
def ResidualCNN.forwardV (ops : ScalarOps) (training : Bool)
    (inC outC k stride nf fDim tDim : Nat) (P : ResidualCNNParams) (p : ℚ)
    (m1 m2 : T4) (x : T4) : T4 :=
  let x1 := CNNLayerNorm.forwardV ops P.gamma1 P.beta1 nf x
  let x2 := gelu4V ops x1
  let x3 := dropout4V training p m1 x2
  let x4 := conv2dV inC k stride (k / 2) fDim tDim P.w1 P.b1 x3
  let x5 := CNNLayerNorm.forwardV ops P.gamma2 P.beta2 nf x4
  let x6 := gelu4V ops x5
  let x7 := dropout4V training p m2 x6
  let x8 := conv2dV outC k stride (k / 2)
    (convOutDim fDim k stride (k / 2)) (convOutDim tDim k stride (k / 2)) P.w2 P.b2 x7
  fun b c f t => x8 b c f t + x b c f t

/-- Learned parameters of one direction of a GRU layer
(`weight_ih` split into reset/update/new rows, likewise `weight_hh`,
and the four bias vectors split the same way). -/
structure GRUDirParams where
  wir : Mat
  whr : Mat
  wiz : Mat
  whz : Mat
  win : Mat
  whn : Mat
  bir : Vec
  bhr : Vec
  biz : Vec
  bhz : Vec
  bin : Vec
  bhn : Vec

/-- One GRU cell step (PyTorch's GRU equations):
`r = sigmoid(W_ir x + b_ir + W_hr h + b_hr)`,
`z = sigmoid(W_iz x + b_iz + W_hz h + b_hz)`,
`n = tanh(W_in x + b_in + r * (W_hn h + b_hn))`,
`h = (1 - z) * n + z * h`. -/
def gruCellV (ops : ScalarOps) (inDim hid : Nat) (W : GRUDirParams) (xv h : Vec) : Vec :=
  let r : Vec := fun j =>
    ops.sigmoid (matvec W.wir inDim xv j + W.bir j + matvec W.whr hid h j + W.bhr j)
  let z : Vec := fun j =>
    ops.sigmoid (matvec W.wiz inDim xv j + W.biz j + matvec W.whz hid h j + W.bhz j)
  let n : Vec := fun j =>
    ops.tanh (matvec W.win inDim xv j + W.bin j + r j * (matvec W.whn hid h j + W.bhn j))
  fun j => (1 - z j) * n j + z j * h j

/-- Hidden states of the forward direction: `gruFwdH t` is the hidden state
after consuming `seq 0, …, seq (t-1)` starting from the zero state. -/
def gruFwdH (ops : ScalarOps) (inDim hid : Nat) (W : GRUDirParams)
    (seq : Nat → Vec) : Nat → Vec
  | 0 => fun _ => 0
  | t + 1 => gruCellV ops inDim hid W (seq t) (gruFwdH ops inDim hid W seq t)

/-- Hidden states of the backward direction over a length-`T` sequence:
`gruBwdH i` is the hidden state after consuming
`seq (T-1), …, seq (T-i)` starting from the zero state. -/
def gruBwdH (ops : ScalarOps) (inDim hid : Nat) (W : GRUDirParams)
    (T : Nat) (seq : Nat → Vec) : Nat → Vec
  | 0 => fun _ => 0
  | i + 1 => gruCellV ops inDim hid W (seq (T - 1 - i)) (gruBwdH ops inDim hid W T seq i)

/-- Output of a single-layer bidirectional GRU on a length-`T` sequence:
at each time step the forward output is concatenated with the backward
output (coordinates `0..hid-1` and `hid..2*hid-1`). -/
def biGRUSeqV (ops : ScalarOps) (inDim hid : Nat) (Wf Wb : GRUDirParams)
    (T : Nat) (seq : Nat → Vec) : Nat → Vec :=
  fun t j =>
    if j < hid then gruFwdH ops inDim hid Wf seq (t + 1) j
    else gruBwdH ops inDim hid Wb T seq (T - t) (j - hid)

/-- Learned parameters of one `BidirectionalGRU` block: its layer norm's
scale/shift and the two GRU directions. -/
structure BiGRUParams where
  gamma : Vec
  beta : Vec
  fwdW : GRUDirParams
  bwdW : GRUDirParams

/-- `BidirectionalGRU.forward` on values: layer norm over the trailing axis,
GELU, the bidirectional GRU (output sequence retained, final hidden state
discarded), dropout.  `batch_first` selects whether axis 0 or axis 1 of the
3D input is treated as the sequence axis; `T` is the length of that axis. -/
def BidirectionalGRU.forwardV (ops : ScalarOps) (training : Bool)
    (rnnDim hid : Nat) (batchFirst : Bool) (P : BiGRUParams) (p : ℚ)
    (mask : T3) (T : Nat) (x : T3) : T3 :=
  let x1 : T3 := fun a b f => lnVec ops P.gamma P.beta rnnDim (fun i => x a b i) f
  let x2 := gelu3V ops x1
  let x3 : T3 :=
    if batchFirst then
      fun a t j => biGRUSeqV ops rnnDim hid P.fwdW P.bwdW T (fun s => x2 a s) t j
    else
      fun t a j => biGRUSeqV ops rnnDim hid P.fwdW P.bwdW T (fun s => x2 s a) t j
  dropout3V training p mask x3

/-- All learned parameters of `SpeechRecognitionModel`, together with the
hyperparameters its `forward` depends on. -/
structure SRMParams where
  stride : Nat
  nFeats : Nat
  rnnDim : Nat
  dropout : ℚ
  cnnW : Nat → Nat → Nat → Nat → ℚ
  cnnB : Vec
  resLayers : List ResidualCNNParams
  fcW : Mat
  fcB : Vec
  rnnLayers : List BiGRUParams
  clW1 : Mat
  clB1 : Vec
  clW2 : Mat
  clB2 : Vec

/-- The uniform draws consumed by the dropout sites of one forward call:
two 4D tensors per residual block, one 3D tensor per recurrent block, and
one 3D tensor in the classifier. -/
structure ForwardRandomness where
  resDraws : Nat → T4 × T4
  rnnDraws : Nat → T3
  clDraw : T3

/-- The `rescnn_layers` stack on values: each block is
`ResidualCNN(32, 32, kernel=3, stride=1)` with its own pair of dropout
draws. -/
def rescnnStackV (ops : ScalarOps) (training : Bool) (nf fDim tDim : Nat) (p : ℚ) :
    List ResidualCNNParams → (Nat → T4 × T4) → T4 → T4
  | [], _, x => x
  | P :: rest, draws, x =>
      rescnnStackV ops training nf fDim tDim p rest (fun i => draws (i + 1))
        (ResidualCNN.forwardV ops training 32 32 3 1 nf fDim tDim P p
          (draws 0).1 (draws 0).2 x)

/-- The `birnn_layers` stack on values, starting at absolute block index
`i`: block `i` has input width `rnnDim` if `i = 0` else `rnnDim * 2`, hidden
size `rnnDim`, and `batch_first = (i == 0)`; its sequence axis is axis 1
(of length `d1`) when batch-first and axis 0 (of length `d0`) otherwise. -/
def birnnStackV (ops : ScalarOps) (training : Bool) (rnnDim : Nat) (p : ℚ)
    (d0 d1 : Nat) : Nat → List BiGRUParams → (Nat → T3) → T3 → T3
  | _, [], _, x => x
  | i, P :: rest, draws, x =>
      birnnStackV ops training rnnDim p d0 d1 (i + 1) rest (fun j => draws (j + 1))
        (BidirectionalGRU.forwardV ops training (if i = 0 then rnnDim else rnnDim * 2)
          rnnDim (decide (i = 0)) P p (draws 0) (if i = 0 then d1 else d0) x)

/-- `SpeechRecognitionModel.forward` on values: initial convolution,
residual stack, view + transpose (merging channel and feature axes),
`fully_connected`, recurrent stack, classifier
(`Linear(rnn_dim * 2, rnn_dim)`, GELU, dropout, `Linear(rnn_dim, n_class)`).
`batchSize`, `fDim`, `tDim` are the input tensor's batch and spatial
extents. -/
def SpeechRecognitionModel.forwardV (ops : ScalarOps) (P : SRMParams)
    (training : Bool) (R : ForwardRandomness) (batchSize fDim tDim : Nat)
    (x : T4) : T3 :=
  let f1 := convOutDim fDim 3 P.stride 1
  let t1 := convOutDim tDim 3 P.stride 1
  let x1 := conv2dV 1 3 P.stride 1 fDim tDim P.cnnW P.cnnB x
  let x2 := rescnnStackV ops training (P.nFeats / 2) f1 t1 P.dropout
    P.resLayers R.resDraws x1
  let x3 : T3 := fun a i t => x2 a (i / f1) (i % f1) t
  let x4 : T3 := fun a t i => x3 a i t
  let x5 := linearV P.fcW P.fcB (P.nFeats / 2 * 32) x4
  let x6 := birnnStackV ops training P.rnnDim P.dropout batchSize t1 0
    P.rnnLayers R.rnnDraws x5
  let x7 := linearV P.clW1 P.clB1 (P.rnnDim * 2) x6
  let x8 := gelu3V ops x7
  let x9 := dropout3V training P.dropout R.clDraw x8
  linearV P.clW2 P.clB2 P.rnnDim x9

/-! ## C6: the normalization wrapper normalizes over the feature axis -/

/-- C6: on a 4D input of the configured feature width the wrapper returns a
tensor of identical shape, and on values the wrapper — transpose feature
and time, trailing-axis layer norm, transpose back — computes at every
position `(b, c, f, t)` the layer normalization of the feature fiber
`i ↦ x b c i t` at coordinate `f`, so the normalization statistics are
taken over the feature dimension at each `(batch, channel, time)`
position. -/
theorem C6_cnnlayernorm_feature_axis (ops : ScalarOps) (gamma beta : Vec)
    (nf b c f t : Nat) (x : T4) :
    CNNLayerNorm.forwardShape nf [b, c, nf, t] = some [b, c, nf, t] ∧
    CNNLayerNorm.forwardV ops gamma beta nf x b c f t =
      lnVec ops gamma beta nf (fun i => x b c i t) f := by
  constructor
  · simp [CNNLayerNorm.forwardShape, transpose23Shape, layerNormShape]
  · rfl

/-! ## Dropout determinism lemmas -/

/-- A tensor of dropout draws is valid when every draw is below 1
(a uniform sample from `[0, 1)` always is). -/
def validT4 (u : T4) : Prop := ∀ b c f t, u b c f t < 1

/-- A tensor of dropout draws is valid when every draw is below 1. -/
def validT3 (u : T3) : Prop := ∀ a b c, u a b c < 1

theorem dropout4V_eval (p : ℚ) (u x : T4) : dropout4V false p u x = x := rfl

theorem dropout3V_eval (p : ℚ) (u x : T3) : dropout3V false p u x = x := rfl

theorem dropout4V_zero (u : T4) (hu : validT4 u) :
    ∀ x : T4, dropout4V true 0 u x = x := by
  intro x
  funext b c f t
  simp [dropout4V, hu b c f t]

theorem dropout3V_zero (u : T3) (hu : validT3 u) :
    ∀ x : T3, dropout3V true 0 u x = x := by
  intro x
  funext a b c
  simp [dropout3V, hu a b c]

theorem resForwardV_eval (ops : ScalarOps) (inC outC k stride nf fD tD : Nat)
    (P : ResidualCNNParams) (p : ℚ) (m1 m2 m1' m2' x : T4) :
    ResidualCNN.forwardV ops false inC outC k stride nf fD tD P p m1 m2 x =
      ResidualCNN.forwardV ops false inC outC k stride nf fD tD P p m1' m2' x := rfl

theorem resForwardV_zero (ops : ScalarOps) (inC outC k stride nf fD tD : Nat)
    (P : ResidualCNNParams) (m1 m2 m1' m2' x : T4)
    (h1 : validT4 m1) (h2 : validT4 m2) (h1' : validT4 m1') (h2' : validT4 m2') :
    ResidualCNN.forwardV ops true inC outC k stride nf fD tD P 0 m1 m2 x =
      ResidualCNN.forwardV ops true inC outC k stride nf fD tD P 0 m1' m2' x := by
  simp only [ResidualCNN.forwardV, dropout4V_zero m1 h1, dropout4V_zero m2 h2,
    dropout4V_zero m1' h1', dropout4V_zero m2' h2']

theorem bigruForwardV_eval (ops : ScalarOps) (rnnDim hid : Nat) (bf : Bool)
    (P : BiGRUParams) (p : ℚ) (m m' : T3) (T : Nat) (x : T3) :
    BidirectionalGRU.forwardV ops false rnnDim hid bf P p m T x =
      BidirectionalGRU.forwardV ops false rnnDim hid bf P p m' T x := rfl

theorem bigruForwardV_zero (ops : ScalarOps) (rnnDim hid : Nat) (bf : Bool)
    (P : BiGRUParams) (m m' : T3) (T : Nat) (x : T3)
    (hm : validT3 m) (hm' : validT3 m') :
    BidirectionalGRU.forwardV ops true rnnDim hid bf P 0 m T x =
      BidirectionalGRU.forwardV ops true rnnDim hid bf P 0 m' T x := by
  simp only [BidirectionalGRU.forwardV, dropout3V_zero m hm, dropout3V_zero m' hm']

theorem rescnnStackV_eval (ops : ScalarOps) (nf fD tD : Nat) (p : ℚ) :
    ∀ (L : List ResidualCNNParams) (d1 d2 : Nat → T4 × T4) (x : T4),
      rescnnStackV ops false nf fD tD p L d1 x =
        rescnnStackV ops false nf fD tD p L d2 x := by
  intro L
  induction L with
  | nil => intro d1 d2 x; rfl
  | cons P rest ih =>
      intro d1 d2 x
      simp only [rescnnStackV]
      rw [resForwardV_eval ops 32 32 3 1 nf fD tD P p (d1 0).1 (d1 0).2
        (d2 0).1 (d2 0).2 x]
      exact ih _ _ _

theorem rescnnStackV_zero (ops : ScalarOps) (nf fD tD : Nat) :
    ∀ (L : List ResidualCNNParams) (d1 d2 : Nat → T4 × T4) (x : T4),
      (∀ i, validT4 (d1 i).1 ∧ validT4 (d1 i).2) →
      (∀ i, validT4 (d2 i).1 ∧ validT4 (d2 i).2) →
      rescnnStackV ops true nf fD tD 0 L d1 x =
        rescnnStackV ops true nf fD tD 0 L d2 x := by
  intro L
  induction L with
  | nil => intro d1 d2 x _ _; rfl
  | cons P rest ih =>
      intro d1 d2 x hd1 hd2
      simp only [rescnnStackV]
      rw [resForwardV_zero ops 32 32 3 1 nf fD tD P (d1 0).1 (d1 0).2
        (d2 0).1 (d2 0).2 x (hd1 0).1 (hd1 0).2 (hd2 0).1 (hd2 0).2]
      exact ih _ _ _ (fun i => hd1 (i + 1)) (fun i => hd2 (i + 1))

theorem birnnStackV_eval (ops : ScalarOps) (rnnDim : Nat) (p : ℚ) (d0 d1 : Nat) :
    ∀ (L : List BiGRUParams) (i : Nat) (dr1 dr2 : Nat → T3) (x : T3),
      birnnStackV ops false rnnDim p d0 d1 i L dr1 x =
        birnnStackV ops false rnnDim p d0 d1 i L dr2 x := by
  intro L
  induction L with
  | nil => intro i dr1 dr2 x; rfl
  | cons P rest ih =>
      intro i dr1 dr2 x
      simp only [birnnStackV]
      rw [bigruForwardV_eval ops (if i = 0 then rnnDim else rnnDim * 2) rnnDim
        (decide (i = 0)) P p (dr1 0) (dr2 0) (if i = 0 then d1 else d0) x]
      exact ih _ _ _ _

theorem birnnStackV_zero (ops : ScalarOps) (rnnDim : Nat) (d0 d1 : Nat) :
    ∀ (L : List BiGRUParams) (i : Nat) (dr1 dr2 : Nat → T3) (x : T3),
      (∀ j, validT3 (dr1 j)) → (∀ j, validT3 (dr2 j)) →
      birnnStackV ops true rnnDim 0 d0 d1 i L dr1 x =
        birnnStackV ops true rnnDim 0 d0 d1 i L dr2 x := by
  intro L
  induction L with
  | nil => intro i dr1 dr2 x _ _; rfl
  | cons P rest ih =>
      intro i dr1 dr2 x hd1 hd2
      simp only [birnnStackV]
      rw [bigruForwardV_zero ops (if i = 0 then rnnDim else rnnDim * 2) rnnDim
        (decide (i = 0)) P (dr1 0) (dr2 0) (if i = 0 then d1 else d0) x
        (hd1 0) (hd2 0)]
      exact ih _ _ _ _ (fun j => hd1 (j + 1)) (fun j => hd2 (j + 1))

/-- All dropout draws of one forward call are valid uniform samples
(below 1). -/
def validRandomness (R : ForwardRandomness) : Prop :=
  (∀ i, validT4 (R.resDraws i).1 ∧ validT4 (R.resDraws i).2) ∧
  (∀ i, validT3 (R.rnnDraws i)) ∧ validT3 R.clDraw

/-! ## C8: determinism of the forward pass up to dropout randomness -/

/-- C8: with identical parameters and identical input, two forward calls of
the top-level model produce identical output in evaluation mode for any two
sets of dropout draws; in training mode with dropout probability 0 (and
valid draws) they are also identical; and in training mode with any dropout
probability, two calls can differ only through the dropout draws: with
equal draws the outputs are equal. -/
theorem C8_forward_determinism (ops : ScalarOps) (P : SRMParams) (B fD tD : Nat)
    (x : T4) (R1 R2 : ForwardRandomness) :
    (SpeechRecognitionModel.forwardV ops P false R1 B fD tD x =
      SpeechRecognitionModel.forwardV ops P false R2 B fD tD x) ∧
    (P.dropout = 0 → validRandomness R1 → validRandomness R2 →
      SpeechRecognitionModel.forwardV ops P true R1 B fD tD x =
        SpeechRecognitionModel.forwardV ops P true R2 B fD tD x) ∧
    (R1 = R2 →
      SpeechRecognitionModel.forwardV ops P true R1 B fD tD x =
        SpeechRecognitionModel.forwardV ops P true R2 B fD tD x) := by
  refine ⟨?_, ?_, ?_⟩
  · simp only [SpeechRecognitionModel.forwardV, dropout3V_eval]
    rw [rescnnStackV_eval ops (P.nFeats / 2) (convOutDim fD 3 P.stride 1)
      (convOutDim tD 3 P.stride 1) P.dropout P.resLayers R1.resDraws R2.resDraws
      (conv2dV 1 3 P.stride 1 fD tD P.cnnW P.cnnB x)]
    exact congrArg
      (fun z => linearV P.clW2 P.clB2 P.rnnDim (gelu3V ops
        (linearV P.clW1 P.clB1 (P.rnnDim * 2) z)))
      (birnnStackV_eval ops P.rnnDim P.dropout B (convOutDim tD 3 P.stride 1)
        P.rnnLayers 0 R1.rnnDraws R2.rnnDraws _)
  · intro h0 hv1 hv2
    simp only [SpeechRecognitionModel.forwardV, h0]
    rw [dropout3V_zero R1.clDraw hv1.2.2, dropout3V_zero R2.clDraw hv2.2.2]
    rw [rescnnStackV_zero ops (P.nFeats / 2) (convOutDim fD 3 P.stride 1)
      (convOutDim tD 3 P.stride 1) P.resLayers R1.resDraws R2.resDraws
      (conv2dV 1 3 P.stride 1 fD tD P.cnnW P.cnnB x) hv1.1 hv2.1]
    exact congrArg
      (fun z => linearV P.clW2 P.clB2 P.rnnDim (gelu3V ops
        (linearV P.clW1 P.clB1 (P.rnnDim * 2) z)))
      (birnnStackV_zero ops P.rnnDim B (convOutDim tD 3 P.stride 1)
        P.rnnLayers 0 R1.rnnDraws R2.rnnDraws _ hv1.2.1 hv2.2.1)
  · intro h
    rw [h]

/-! ## Concrete instances used to witness C8 -/

/-- Scalar operations instantiated with the identity function. -/
def idOps : ScalarOps := ⟨fun q => q, fun q => q, fun q => q, fun q => q⟩

/-- The all-zero 4D tensor. -/
def zero4 : T4 := fun _ _ _ _ => 0

/-- Zero-initialised residual block parameters. -/
def zeroResParams : ResidualCNNParams :=
  ⟨fun _ _ _ _ => 0, fun _ => 0, fun _ _ _ _ => 0, fun _ => 0,
    fun _ => 0, fun _ => 0, fun _ => 0, fun _ => 0⟩

/-- Zero-initialised GRU direction parameters. -/
def zeroGRUDir : GRUDirParams :=
  ⟨fun _ _ => 0, fun _ _ => 0, fun _ _ => 0, fun _ _ => 0, fun _ _ => 0,
    fun _ _ => 0, fun _ => 0, fun _ => 0, fun _ => 0, fun _ => 0,
    fun _ => 0, fun _ => 0⟩

/-- Zero-initialised recurrent block parameters. -/
def zeroBiGRU : BiGRUParams := ⟨fun _ => 0, fun _ => 0, zeroGRUDir, zeroGRUDir⟩

/-- A small concrete model: stride 2, n_feats = 2, rnn_dim = 1, dropout 0,
one residual block, one recurrent block, all weights zero. -/
def smallParams : SRMParams :=
  ⟨2, 2, 1, 0, fun _ _ _ _ => 0, fun _ => 0, [zeroResParams],
    fun _ _ => 0, fun _ => 0, [zeroBiGRU], fun _ _ => 0, fun _ => 0,
    fun _ _ => 0, fun _ => 0⟩

/-- Dropout draws that are all 0. -/
def drawsZero : ForwardRandomness :=
  ⟨fun _ => (fun _ _ _ _ => 0, fun _ _ _ _ => 0), fun _ => fun _ _ _ => 0,
    fun _ _ _ => 0⟩

/-- Dropout draws that are all 1/2. -/
def drawsHalf : ForwardRandomness :=
  ⟨fun _ => (fun _ _ _ _ => 1 / 2, fun _ _ _ _ => 1 / 2),
    fun _ => fun _ _ _ => 1 / 2, fun _ _ _ => 1 / 2⟩

theorem drawsZero_valid : validRandomness drawsZero :=
  ⟨fun _ => ⟨fun _ _ _ _ => by norm_num [drawsZero], fun _ _ _ _ => by norm_num [drawsZero]⟩,
    fun _ => fun _ _ _ => by norm_num [drawsZero], fun _ _ _ => by norm_num [drawsZero]⟩

theorem drawsHalf_valid : validRandomness drawsHalf :=
  ⟨fun _ => ⟨fun _ _ _ _ => by norm_num [drawsHalf], fun _ _ _ _ => by norm_num [drawsHalf]⟩,
    fun _ => fun _ _ _ => by norm_num [drawsHalf], fun _ _ _ => by norm_num [drawsHalf]⟩

/-- C8, instantiated at the small concrete model on a (1, 1, 2, 2) zero
input, with the all-0 draws against the all-1/2 draws, in evaluation mode
and in training mode with dropout probability 0. -/
theorem C8_forward_determinism_witness :
    (SpeechRecognitionModel.forwardV idOps smallParams false drawsZero 1 2 2 zero4 =
      SpeechRecognitionModel.forwardV idOps smallParams false drawsHalf 1 2 2 zero4) ∧
    (SpeechRecognitionModel.forwardV idOps smallParams true drawsZero 1 2 2 zero4 =
      SpeechRecognitionModel.forwardV idOps smallParams true drawsHalf 1 2 2 zero4) :=
  ⟨(C8_forward_determinism idOps smallParams 1 2 2 zero4 drawsZero drawsHalf).1,
    (C8_forward_determinism idOps smallParams 1 2 2 zero4 drawsZero drawsHalf).2.1
      rfl drawsZero_valid drawsHalf_valid⟩
